import Mathlib

/-!
Verification development for the whoop-mcp-server repository.

The Python sources are shallowly embedded as pure Lean functions:

* `src/src/whoop_oauth_provider.py` — the OAuth authorization provider.
  Its mutable dictionaries (`_clients`, `_tokens`, `_auth_codes`,
  `_whoop_tokens`) become association lists collected in `ProviderState`;
  each provider method becomes a function from the state (plus the values
  that Python obtains from the environment: the current time
  `time.time()`, and the random strings drawn from `secrets.*`) to the new
  state and the returned/raised value.  File persistence (`_save_*`)
  only mirrors the in-memory dictionaries and is not modelled.

* `src/src/simple_mcp_server.py` — the socket JSON-RPC handler.
  JSON values are embedded as the inductive `JValue`; `json.loads` is an
  external library call, so `handle_jsonrpc_message` takes the parse
  outcome (`Except String JValue`, where `.error e` stands for a
  `json.JSONDecodeError` with message `e`) instead of the raw string.

* `src/src/whoop_server.py` — the tool dispatcher.  Each tool takes the
  authentication flag (`whoop_client` being set) and the outcome of the
  upstream SDK call as an `Except String _` (where `.error e` stands for
  an exception with message `e` raised by the call), mirroring the
  `try/except` structure of the Python code.

Python truthiness (`if not x:` on numbers, strings, lists, dicts and
`None`) is embedded explicitly wherever the source relies on it.
-/

namespace Whoop

/-! ### Association lists standing for Python dicts -/

/-- Lookup in an association list; stands for `d.get(k)` on a Python dict. -/
def lookupA {α : Type _} : List (String × α) → String → Option α
  | [], _ => none
  | (k1, v) :: rest, k => if k1 = k then some v else lookupA rest k

/-- Remove every binding of a key; stands for `del d[k]` (keys are unique
in a Python dict, so removing all bindings is the same operation). -/
def eraseA {α : Type _} : List (String × α) → String → List (String × α)
  | [], _ => []
  | (k1, v) :: rest, k => if k1 = k then eraseA rest k else (k1, v) :: eraseA rest k

/-- Overwrite a key; stands for `d[k] = v` on a Python dict. -/
def insertA {α : Type _} (m : List (String × α)) (k : String) (v : α) : List (String × α) :=
  (k, v) :: eraseA m k

/-! ### Data model of the OAuth provider (`whoop_oauth_provider.py`)

The record types mirror the `mcp` library models used by the provider
(`AuthorizationCode`, `AccessToken`, `RefreshToken`, `OAuthToken`,
`OAuthClientInformationFull`, `AuthorizationParams`), restricted to the
fields the provider reads or writes.  URLs (`AnyUrl`) are embedded as
strings, timestamps as `Nat` seconds. -/

/-- RegistrationError raised by `register_client`. -/
structure RegistrationError where
  error : String
  error_description : String
  deriving DecidableEq

/-- TokenError raised by `exchange_authorization_code`. -/
structure TokenError where
  error : String
  error_description : String
  deriving DecidableEq

/-- Client registration record (`OAuthClientInformationFull`). -/
structure OAuthClientInformationFull where
  client_id : String
  client_secret : Option String
  client_id_issued_at : Option Nat
  redirect_uris : List String
  deriving DecidableEq

/-- Parameters of an authorization request (`AuthorizationParams`). -/
structure AuthorizationParams where
  scopes : Option (List String)
  code_challenge : String
  redirect_uri : String
  redirect_uri_provided_explicitly : Bool
  resource : Option String
  state : Option String
  deriving DecidableEq

/-- Stored authorization code (`AuthorizationCode`). -/
structure AuthorizationCode where
  code : String
  scopes : List String
  expires_at : Nat
  client_id : String
  code_challenge : String
  redirect_uri : String
  redirect_uri_provided_explicitly : Bool
  resource : Option String
  deriving DecidableEq

/-- Stored access token (`AccessToken`). -/
structure AccessToken where
  token : String
  client_id : String
  scopes : List String
  expires_at : Option Nat
  resource : Option String
  deriving DecidableEq

/-- Refresh token record (`RefreshToken`). -/
structure RefreshToken where
  token : String
  client_id : String
  scopes : List String
  expires_at : Option Nat
  deriving DecidableEq

/-- Token response returned by the exchange methods (`OAuthToken`). -/
structure OAuthToken where
  access_token : String
  token_type : String
  expires_in : Nat
  scope : Option String
  refresh_token : Option String
  deriving DecidableEq

/-- The mutable dictionaries of `WhoopOAuthProvider`: `_clients`,
`_tokens`, `_auth_codes` and `_whoop_tokens` (a Whoop token record is
itself a JSON dict, embedded as a string-to-string association list). -/
structure ProviderState where
  clients : List (String × OAuthClientInformationFull)
  tokens : List (String × AccessToken)
  auth_codes : List (String × AuthorizationCode)
  whoop_tokens : List (String × List (String × String))
  deriving DecidableEq

/-- Environment configuration read by the module: `WHOOP_CLIENT_ID`,
`WHOOP_CLIENT_SECRET`, `WHOOP_REDIRECT_URI` (each `os.getenv`, hence
optional). -/
structure WhoopConfig where
  whoop_client_id : Option String
  whoop_client_secret : Option String
  whoop_redirect_uri : Option String
  deriving DecidableEq

/-! ### `urllib.parse.urlencode` as used by `authorize` -/

/-- UTF-8 encoding of one character as a byte list. -/
def utf8Encode (c : Char) : List Nat :=
  let n := c.toNat
  if n < 0x80 then [n]
  else if n < 0x800 then [0xC0 + n / 64, 0x80 + n % 64]
  else if n < 0x10000 then [0xE0 + n / 4096, 0x80 + (n / 64) % 64, 0x80 + n % 64]
  else [0xF0 + n / 262144, 0x80 + (n / 4096) % 64, 0x80 + (n / 64) % 64, 0x80 + n % 64]

/-- Upper-case hexadecimal digit. -/
def hexUpper (n : Nat) : Char :=
  if n < 10 then Char.ofNat (48 + n) else Char.ofNat (55 + n)

/-- Percent-encoding of a single byte as done by `urllib.parse.quote_plus`
with an empty safe set: ASCII letters, digits and `_.-~` pass through,
space becomes `+`, everything else becomes `%XX`. -/
def quoteByte (b : Nat) : String :=
  if (48 ≤ b ∧ b ≤ 57) ∨ (65 ≤ b ∧ b ≤ 90) ∨ (97 ≤ b ∧ b ≤ 122)
      ∨ b = 95 ∨ b = 46 ∨ b = 45 ∨ b = 126 then
    String.singleton (Char.ofNat b)
  else if b = 32 then "+"
  else "%" ++ String.singleton (hexUpper (b / 16)) ++ String.singleton (hexUpper (b % 16))

/-- `urllib.parse.quote_plus` on a string (UTF-8 then byte-wise quoting). -/
def quote_plus (s : String) : String :=
  String.join (((s.toList.map utf8Encode).flatten).map quoteByte)

/-- `urllib.parse.urlencode` on a parameter list. -/
def urlencode (q : List (String × String)) : String :=
  String.intercalate "&" (q.map (fun kv => quote_plus kv.1 ++ "=" ++ quote_plus kv.2))

/-- Rendering of an optional environment variable the way `urlencode`
stringifies it: Python `str(None)` is the text `None`. -/
def pyStrOpt : Option String → String
  | some s => s
  | none => "None"

/-! ### Provider operations -/

/-- register_client (whoop_oauth_provider.py lines 177-192).  The fresh
values drawn from `secrets.token_urlsafe(32)` are the `fresh_id` /
`fresh_secret` arguments, `int(time.time())` is `now`.  Python raises
`RegistrationError` before touching the store when the submitted
registration has no redirect URIs; otherwise it overwrites the id, secret
and issuance time and stores the client under the fresh id. -/
def register_client (st : ProviderState) (client_info : OAuthClientInformationFull)
    (fresh_id fresh_secret : String) (now : Nat) :
    ProviderState × Except RegistrationError OAuthClientInformationFull :=
  if client_info.redirect_uris.isEmpty then
    (st, .error { error := "invalid_redirect_uri",
                  error_description := "At least one redirect URI is required" })
  else
    let client_info1 : OAuthClientInformationFull :=
      { client_info with
          client_id := fresh_id
          client_secret := some fresh_secret
          client_id_issued_at := some now }
    ({ st with clients := insertA st.clients fresh_id client_info1 }, .ok client_info1)

/-- State value used for the upstream redirect: `params.state or
secrets.token_urlsafe(16)`; Python `or` falls through on `None` and on
the empty string. -/
def authStateValue (params : AuthorizationParams) (fresh_state : String) : String :=
  match params.state with
  | some s => if s = "" then fresh_state else s
  | none => fresh_state

/-- Query parameters of the upstream Whoop OAuth URL built by `authorize`
(whoop_oauth_provider.py lines 215-221): note the hardcoded `scope`
value and that only the upstream client id — not the secret, not the
request's scopes — is included. -/
def whoopAuthParams (cfg : WhoopConfig) (params : AuthorizationParams)
    (fresh_state : String) : List (String × String) :=
  [("response_type", "code"),
   ("client_id", pyStrOpt cfg.whoop_client_id),
   ("redirect_uri", pyStrOpt cfg.whoop_redirect_uri),
   ("scope", "read:recovery read:workout read:profile"),
   ("state", authStateValue params fresh_state)]

/-- authorize (whoop_oauth_provider.py lines 194-229).  `fresh_code` is
`secrets.token_urlsafe(32)`, `fresh_state` is the fallback
`secrets.token_urlsafe(16)`, `now` is `time.time()`.  Stores a
10-minute authorization code and returns the upstream redirect URL. -/
def authorize (st : ProviderState) (cfg : WhoopConfig)
    (client : OAuthClientInformationFull) (params : AuthorizationParams)
    (fresh_code fresh_state : String) (now : Nat) : ProviderState × String :=
  let authorization_code : AuthorizationCode :=
    { code := fresh_code
      scopes := params.scopes.getD []
      expires_at := now + 600
      client_id := client.client_id
      code_challenge := params.code_challenge
      redirect_uri := params.redirect_uri
      redirect_uri_provided_explicitly := params.redirect_uri_provided_explicitly
      resource := params.resource }
  ({ st with auth_codes := insertA st.auth_codes fresh_code authorization_code },
   "https://api.prod.whoop.com/oauth/oauth2/auth?"
     ++ urlencode (whoopAuthParams cfg params fresh_state))

/-- load_authorization_code (whoop_oauth_provider.py lines 231-245):
missing code gives `None`; a code with `time.time() > expires_at` is
deleted and gives `None`; otherwise the code is returned. -/
def load_authorization_code (st : ProviderState)
    (client : OAuthClientInformationFull) (authorization_code : String)
    (now : Nat) : ProviderState × Option AuthorizationCode :=
  match lookupA st.auth_codes authorization_code with
  | none => (st, none)
  | some code =>
      if now > code.expires_at then
        ({ st with auth_codes := eraseA st.auth_codes authorization_code }, none)
      else
        (st, some code)

/-- exchange_authorization_code (whoop_oauth_provider.py lines 247-304).
`now` is `int(time.time())`; `session_suffix` is `secrets.token_hex(8)`;
`fresh_access` / `fresh_refresh` are the `secrets.token_urlsafe(32)`
draws.  The used code is deleted first; then, if no Whoop tokens exist
for `default_session` (Python truthiness of the dict), a `TokenError`
is raised — with the deletion already done.  On success a one-hour
access token is stored, and a refresh-token record is built (but never
stored) whose expiry is the access-token expiry plus 86400. -/
def exchange_authorization_code (st : ProviderState)
    (client : OAuthClientInformationFull) (authorization_code : AuthorizationCode)
    (now : Nat) (session_suffix fresh_access fresh_refresh : String) :
    ProviderState × Except TokenError (OAuthToken × AccessToken × RefreshToken) :=
  let st1 : ProviderState :=
    { st with auth_codes := eraseA st.auth_codes authorization_code.code }
  let session_id := "session_" ++ session_suffix
  let whoop_tokens := (lookupA st1.whoop_tokens "default_session").getD []
  if whoop_tokens.isEmpty then
    (st1, .error { error := "invalid_grant",
                   error_description := "No Whoop tokens available for session" })
  else
    let st2 : ProviderState :=
      { st1 with whoop_tokens := insertA st1.whoop_tokens session_id whoop_tokens }
    let access_token := fresh_access
    let expires_at := now + 3600
    let mcp_access_token : AccessToken :=
      { token := access_token, client_id := client.client_id,
        scopes := authorization_code.scopes, expires_at := some expires_at,
        resource := authorization_code.resource }
    let st3 : ProviderState :=
      { st2 with tokens := insertA st2.tokens access_token mcp_access_token }
    let refresh_token := fresh_refresh
    let mcp_refresh_token : RefreshToken :=
      { token := refresh_token, client_id := client.client_id,
        scopes := authorization_code.scopes,
        expires_at := some (expires_at + 86400) }
    (st3, .ok
      ({ access_token := access_token, token_type := "Bearer", expires_in := 3600,
         scope := if authorization_code.scopes.isEmpty then none
                  else some (String.intercalate " " authorization_code.scopes),
         refresh_token := some refresh_token },
       mcp_access_token, mcp_refresh_token))

/-- load_refresh_token (whoop_oauth_provider.py lines 306-312): the body
is literally `return None`. -/
def load_refresh_token (st : ProviderState)
    (client : OAuthClientInformationFull) (refresh_token : String) :
    Option RefreshToken :=
  none

/-- exchange_refresh_token (whoop_oauth_provider.py lines 314-345): the
presented refresh token is never inspected; a fresh one-hour access
token with the requested scopes is stored and returned. -/
def exchange_refresh_token (st : ProviderState)
    (client : OAuthClientInformationFull) (refresh_token : RefreshToken)
    (scopes : List String) (now : Nat) (fresh_access : String) :
    ProviderState × (OAuthToken × AccessToken) :=
  let access_token := fresh_access
  let expires_at := now + 3600
  let mcp_access_token : AccessToken :=
    { token := access_token, client_id := client.client_id, scopes := scopes,
      expires_at := some expires_at, resource := none }
  ({ st with tokens := insertA st.tokens access_token mcp_access_token },
   ({ access_token := access_token, token_type := "Bearer", expires_in := 3600,
      scope := if scopes.isEmpty then none
               else some (String.intercalate " " scopes),
      refresh_token := none },
    mcp_access_token))

/-- load_access_token (whoop_oauth_provider.py lines 347-359).  The
Python guard is `if access_token.expires_at and time.time() >
access_token.expires_at:` — the deletion branch requires the stored
expiry to be truthy (present and nonzero) besides being in the past. -/
def load_access_token (st : ProviderState) (token : String) (now : Nat) :
    ProviderState × Option AccessToken :=
  match lookupA st.tokens token with
  | none => (st, none)
  | some access_token =>
      match access_token.expires_at with
      | some e =>
          if e ≠ 0 ∧ now > e then
            ({ st with tokens := eraseA st.tokens token }, none)
          else
            (st, some access_token)
      | none => (st, some access_token)

/-! ### JSON values (`simple_mcp_server.py` works on parsed JSON) -/

/-- Parsed JSON value, as produced by `json.loads`.  JSON numbers are
embedded as rationals. -/
inductive JValue where
  | null
  | bool (b : Bool)
  | num (q : ℚ)
  | str (s : String)
  | arr (xs : List JValue)
  | obj (fields : List (String × JValue))

/-- Python truthiness of a parsed JSON value: `None`, `False`, zero, the
empty string, the empty list and the empty dict are falsy. -/
def truthy : JValue → Bool
  | .null => false
  | .bool b => b
  | .num q => decide (q ≠ 0)
  | .str s => decide (s ≠ "")
  | .arr xs => !xs.isEmpty
  | .obj fs => !fs.isEmpty

/-- Python truthiness of `d.get(k)` (absent key gives `None`, falsy). -/
def pyTruthy : Option JValue → Bool
  | none => false
  | some v => truthy v

/-- Python type name of a parsed JSON value, as it appears in
`AttributeError` messages. -/
def pyTypeName : JValue → String
  | .null => "NoneType"
  | .bool _ => "bool"
  | .num _ => "int"
  | .str _ => "str"
  | .arr _ => "list"
  | .obj _ => "dict"

/-- Message of the `AttributeError` raised when `.get` is called on a
non-dict value. -/
def no_attr_get (v : JValue) : String :=
  "\x27" ++ pyTypeName v ++ "\x27 object has no attribute \x27get\x27"

/-- Evaluate `v.get(k)`: returns the optional value on a dict, raises
`AttributeError` (as an `Except.error` with the Python message) on
anything else. -/
def jgetE (v : JValue) (k : String) : Except String (Option JValue) :=
  match v with
  | .obj fs => .ok (lookupA fs k)
  | v => .error (no_attr_get v)

mutual

/-- Python `repr` of a parsed JSON value (string quoting simplified to
plain single quotes). -/
def pyRepr : JValue → String
  | .null => "None"
  | .bool b => if b then "True" else "False"
  | .num q => if q.den = 1 then toString q.num else toString q
  | .str s => "\x27" ++ s ++ "\x27"
  | .arr xs => "[" ++ String.intercalate ", " (pyReprList xs) ++ "]"
  | .obj fs => "\x7b" ++ String.intercalate ", " (pyReprFields fs) ++ "\x7d"

/-- Helper of `pyRepr` for list elements. -/
def pyReprList : List JValue → List String
  | [] => []
  | v :: vs => pyRepr v :: pyReprList vs

/-- Helper of `pyRepr` for dict entries. -/
def pyReprFields : List (String × JValue) → List String
  | [] => []
  | (k, v) :: fs => ("\x27" ++ k ++ "\x27: " ++ pyRepr v) :: pyReprFields fs

end

/-- Python `str` of a parsed JSON value (used by the f-strings of the
server). -/
def pyStr : JValue → String
  | .str s => s
  | v => pyRepr v

/-! ### The socket JSON-RPC server (`simple_mcp_server.py`) -/

/-- SERVER_CAPABILITIES constant (simple_mcp_server.py lines 26-44). -/
def SERVER_CAPABILITIES : JValue :=
  .obj
    [("server", .obj
        [("name", .str "Simple MCP Server"),
         ("version", .str "0.1.0"),
         ("description", .str "Minimal MCP server for testing")]),
     ("resources", .arr
        [.obj [("name", .str "test"), ("description", .str "Test resource")]]),
     ("tools", .arr
        [.obj [("name", .str "echo"), ("description", .str "Echo back the input")]])]

/-- create_response (simple_mcp_server.py lines 54-66): the response dict
carries `error` when an error is given and `result` otherwise. -/
def create_response (request_id : JValue) (result : JValue)
    (error : Option JValue) : JValue :=
  match error with
  | some e => .obj [("jsonrpc", .str "2.0"), ("id", request_id), ("error", e)]
  | none => .obj [("jsonrpc", .str "2.0"), ("id", request_id), ("result", result)]

/-- Error dict passed to `create_response`: `{"code": ..., "message": ...,
"data": ...}` with `data` null when the `JsonRpcError` carried none. -/
def jsonrpc_error_obj (code : ℚ) (message : String) (data : JValue) : JValue :=
  .obj [("code", .num code), ("message", .str message), ("data", data)]

/-- Test used for the `jsonrpc != "2.0"` guard: only the JSON string
"2.0" passes. -/
def jsonrpcIs20 : Option JValue → Bool
  | some (.str s) => decide (s = "2.0")
  | _ => false

/-- Python `==` between a parsed JSON value and a string literal, used by
the method dispatch. -/
def jIsStr (v : JValue) (s : String) : Bool :=
  match v with
  | .str t => decide (t = s)
  | _ => false

/-- handle_initialize (simple_mcp_server.py lines 68-76): reads
`params.get(...)` (an `AttributeError` on non-dict params) and returns
the capabilities. -/
def handle_initialize_rpc (params : JValue) : Except String JValue :=
  match params with
  | .obj _ => .ok (.obj [("capabilities", SERVER_CAPABILITIES)])
  | v => .error (no_attr_get v)

/-- handle_echo (simple_mcp_server.py lines 78-82): echoes
`params.get("text", "No text provided")`. -/
def handle_echo (params : JValue) : Except String JValue :=
  match params with
  | .obj fs =>
      .ok (.obj [("text",
        .str ("Echo: " ++ pyStr ((lookupA fs "text").getD (.str "No text provided"))))])
  | v => .error (no_attr_get v)

/-- handle_jsonrpc_message (simple_mcp_server.py lines 84-140) on the
outcome of `json.loads`: a `JSONDecodeError` with message `e` becomes the
-32700 "Parse error" response with a null id; a non-dict message raises
`AttributeError` at `message.get("jsonrpc")`, caught by the generic
handler before `request_id` is bound (-32603 with null id); the two
-32600 `JsonRpcError`s are raised before `request_id` is bound; the
-32601 error and the handler exceptions are raised after, so they carry
the request id. -/
def handle_jsonrpc_message (parsed : Except String JValue) : JValue :=
  match parsed with
  | .error e =>
      create_response .null .null
        (some (jsonrpc_error_obj (-32700) "Parse error" (.str e)))
  | .ok message =>
      match message with
      | .obj fs =>
          if !jsonrpcIs20 (lookupA fs "jsonrpc") then
            create_response .null .null
              (some (jsonrpc_error_obj (-32600) "Invalid Request: Not JSON-RPC 2.0" .null))
          else if !pyTruthy (lookupA fs "method") then
            create_response .null .null
              (some (jsonrpc_error_obj (-32600) "Invalid Request: No method specified" .null))
          else
            let method := (lookupA fs "method").getD .null
            let params := (lookupA fs "params").getD (.obj [])
            let request_id := (lookupA fs "id").getD .null
            if jIsStr method "initialize" then
              match handle_initialize_rpc params with
              | .ok result => create_response request_id result none
              | .error e =>
                  create_response request_id .null
                    (some (jsonrpc_error_obj (-32603) "Internal error" (.str e)))
            else if jIsStr method "echo" then
              match handle_echo params with
              | .ok result => create_response request_id result none
              | .error e =>
                  create_response request_id .null
                    (some (jsonrpc_error_obj (-32603) "Internal error" (.str e)))
            else if jIsStr method "shutdown" then
              create_response request_id (.obj [("status", .str "shutting down")]) none
            else
              create_response request_id .null
                (some (jsonrpc_error_obj (-32601) ("Method not found: " ++ pyStr method) .null))
      | v =>
          create_response .null .null
            (some (jsonrpc_error_obj (-32603) "Internal error" (.str (no_attr_get v))))

/-! ### Tool dispatcher (`whoop_server.py`)

Each tool takes the authentication flag (`whoop_client` being non-None)
and the outcome of the upstream SDK call (`Except.error e` standing for
an exception with message `e`), and mirrors the `try/except` body.  The
`datetime.now().isoformat()` timestamp is the `now_iso` argument. -/

/-- Score sub-dict of a cycle as read by `get_average_strain`: the
optional `strain` field (absent key and JSON `null` both map to
`none`). -/
structure Score where
  strain : Option ℚ
  deriving DecidableEq

/-- Cycle dict as read by `get_average_strain`: the optional `score`
sub-dict (`none` covers both an absent key and a falsy value, which the
`cycle.get('score') and ...` guard also skips). -/
structure Cycle where
  score : Option Score
  deriving DecidableEq

/-- Result dict of `get_average_strain`: either `{"error": msg}` or the
success dict with its four keys. -/
inductive StrainResult where
  | error (msg : String)
  | ok (average_strain : ℚ) (days_analyzed : Int) (samples : Nat) (timestamp : String)
  deriving DecidableEq

/-- The `strains` list built by the loop of `get_average_strain`
(whoop_server.py lines 125-128): `if cycle.get('score') and
cycle['score'].get('strain')` — Python truthiness, so a strain equal to
0 is skipped exactly like a missing one. -/
def strainValues : List Cycle → List ℚ
  | [] => []
  | c :: rest =>
      match c.score with
      | some sc =>
          match sc.strain with
          | some v => if v = 0 then strainValues rest else v :: strainValues rest
          | none => strainValues rest
      | none => strainValues rest

/-- get_average_strain (whoop_server.py lines 100-141). -/
def get_average_strain (whoop_client : Bool)
    (upstream : Except String (List Cycle)) (days : Int) (now_iso : String) :
    StrainResult :=
  if !whoop_client then .error "Not authenticated with Whoop"
  else
    match upstream with
    | .error e => .error e
    | .ok cycles =>
        if cycles.isEmpty then .error "No cycle data available"
        else
          let strains := strainValues cycles
          if strains.isEmpty then .error "No strain data available"
          else
            .ok (strains.sum / (strains.length : ℚ)) days strains.length now_iso

/-- Body of the `try` block of get_latest_cycle (whoop_server.py lines
72-95), with the cycle dicts as parsed JSON: the recovery score is
extracted only when both `latest_cycle.get('score')` and
`latest_cycle['score'].get('recovery')` are truthy, and `.get` on a
non-dict raises. -/
def latest_cycle_try (upstream : Except String (List JValue))
    (now_iso : String) : Except String JValue := do
  let cycles ← upstream
  if cycles.isEmpty then
    return .obj [("error", .str "No cycle data available")]
  let latest_cycle := cycles.headD .null
  let score_opt ← jgetE latest_cycle "score"
  let recovery_score : JValue ←
    match score_opt with
    | some score =>
        if truthy score then do
          let r_opt ← jgetE score "recovery"
          match r_opt with
          | some r => pure (if truthy r then r else JValue.null)
          | none => pure JValue.null
        else pure JValue.null
    | none => pure JValue.null
  return .obj [("cycle", latest_cycle), ("recovery_score", recovery_score),
               ("timestamp", .str now_iso)]

/-- get_latest_cycle (whoop_server.py lines 61-98). -/
def get_latest_cycle (whoop_client : Bool)
    (upstream : Except String (List JValue)) (now_iso : String) : JValue :=
  if !whoop_client then .obj [("error", .str "Not authenticated with Whoop")]
  else
    match latest_cycle_try upstream now_iso with
    | .ok v => v
    | .error e => .obj [("error", .str e)]

/-- get_cycles (whoop_server.py lines 172-202). -/
def get_cycles (whoop_client : Bool)
    (upstream : Except String (List JValue)) (now_iso : String) : List JValue :=
  if !whoop_client then [.obj [("error", .str "Not authenticated with Whoop")]]
  else
    match upstream with
    | .error e => [.obj [("error", .str e)]]
    | .ok cycles =>
        if cycles.isEmpty then [.obj [("error", .str "No cycle data available")]]
        else cycles.map fun cycle =>
          .obj [("cycle", cycle), ("timestamp", .str now_iso)]

/-- get_recoveries (whoop_server.py lines 338-368). -/
def get_recoveries (whoop_client : Bool)
    (upstream : Except String (List JValue)) (now_iso : String) : List JValue :=
  if !whoop_client then [.obj [("error", .str "Not authenticated with Whoop")]]
  else
    match upstream with
    | .error e => [.obj [("error", .str e)]]
    | .ok recoveries =>
        if recoveries.isEmpty then [.obj [("error", .str "No recovery data available")]]
        else recoveries.map fun recovery =>
          .obj [("recovery", recovery), ("timestamp", .str now_iso)]

/-- get_sleeps (whoop_server.py lines 370-400). -/
def get_sleeps (whoop_client : Bool)
    (upstream : Except String (List JValue)) (now_iso : String) : List JValue :=
  if !whoop_client then [.obj [("error", .str "Not authenticated with Whoop")]]
  else
    match upstream with
    | .error e => [.obj [("error", .str e)]]
    | .ok sleeps =>
        if sleeps.isEmpty then [.obj [("error", .str "No sleep data available")]]
        else sleeps.map fun sleep =>
          .obj [("sleep", sleep), ("timestamp", .str now_iso)]

/-- get_workouts (whoop_server.py lines 402-432). -/
def get_workouts (whoop_client : Bool)
    (upstream : Except String (List JValue)) (now_iso : String) : List JValue :=
  if !whoop_client then [.obj [("error", .str "Not authenticated with Whoop")]]
  else
    match upstream with
    | .error e => [.obj [("error", .str e)]]
    | .ok workouts =>
        if workouts.isEmpty then [.obj [("error", .str "No workout data available")]]
        else workouts.map fun workout =>
          .obj [("workout", workout), ("timestamp", .str now_iso)]

/-- get_strains (whoop_server.py lines 434-464). -/
def get_strains (whoop_client : Bool)
    (upstream : Except String (List JValue)) (now_iso : String) : List JValue :=
  if !whoop_client then [.obj [("error", .str "Not authenticated with Whoop")]]
  else
    match upstream with
    | .error e => [.obj [("error", .str e)]]
    | .ok strains =>
        if strains.isEmpty then [.obj [("error", .str "No strain data available")]]
        else strains.map fun strain =>
          .obj [("strain", strain), ("timestamp", .str now_iso)]

/-- get_user_body_measurements (whoop_server.py lines 468-493); the
upstream call returns a single value whose truthiness is tested. -/
def get_user_body_measurements (whoop_client : Bool)
    (upstream : Except String JValue) (now_iso : String) : JValue :=
  if !whoop_client then .obj [("error", .str "Not authenticated with Whoop")]
  else
    match upstream with
    | .error e => .obj [("error", .str e)]
    | .ok measurements =>
        if !truthy measurements then
          .obj [("error", .str "No body measurement data available")]
        else
          .obj [("measurements", measurements), ("timestamp", .str now_iso)]

/-- get_cycle_by_id (whoop_server.py lines 206-230). -/
def get_cycle_by_id (whoop_client : Bool) (cycle_id : String)
    (upstream : Except String JValue) (now_iso : String) : JValue :=
  if !whoop_client then .obj [("error", .str "Not authenticated with Whoop")]
  else
    match upstream with
    | .error e => .obj [("error", .str e)]
    | .ok cycle =>
        if !truthy cycle then
          .obj [("error", .str ("No cycle found with ID " ++ cycle_id))]
        else
          .obj [("cycle", cycle), ("timestamp", .str now_iso)]

/-- get_recovery_by_id (whoop_server.py lines 232-256). -/
def get_recovery_by_id (whoop_client : Bool) (recovery_id : String)
    (upstream : Except String JValue) (now_iso : String) : JValue :=
  if !whoop_client then .obj [("error", .str "Not authenticated with Whoop")]
  else
    match upstream with
    | .error e => .obj [("error", .str e)]
    | .ok recovery =>
        if !truthy recovery then
          .obj [("error", .str ("No recovery found with ID " ++ recovery_id))]
        else
          .obj [("recovery", recovery), ("timestamp", .str now_iso)]

/-- get_sleep_by_id (whoop_server.py lines 258-282). -/
def get_sleep_by_id (whoop_client : Bool) (sleep_id : String)
    (upstream : Except String JValue) (now_iso : String) : JValue :=
  if !whoop_client then .obj [("error", .str "Not authenticated with Whoop")]
  else
    match upstream with
    | .error e => .obj [("error", .str e)]
    | .ok sleep =>
        if !truthy sleep then
          .obj [("error", .str ("No sleep found with ID " ++ sleep_id))]
        else
          .obj [("sleep", sleep), ("timestamp", .str now_iso)]

/-- get_workout_by_id (whoop_server.py lines 284-308). -/
def get_workout_by_id (whoop_client : Bool) (workout_id : String)
    (upstream : Except String JValue) (now_iso : String) : JValue :=
  if !whoop_client then .obj [("error", .str "Not authenticated with Whoop")]
  else
    match upstream with
    | .error e => .obj [("error", .str e)]
    | .ok workout =>
        if !truthy workout then
          .obj [("error", .str ("No workout found with ID " ++ workout_id))]
        else
          .obj [("workout", workout), ("timestamp", .str now_iso)]

/-- get_strain_by_id (whoop_server.py lines 310-334). -/
def get_strain_by_id (whoop_client : Bool) (strain_id : String)
    (upstream : Except String JValue) (now_iso : String) : JValue :=
  if !whoop_client then .obj [("error", .str "Not authenticated with Whoop")]
  else
    match upstream with
    | .error e => .obj [("error", .str e)]
    | .ok strain =>
        if !truthy strain then
          .obj [("error", .str ("No strain found with ID " ++ strain_id))]
        else
          .obj [("strain", strain), ("timestamp", .str now_iso)]

/-! ### Spec-side definitions

These follow the words of the specification / claims, for comparison
with the code-side definitions above. -/

/-- Spec-side (claim C7): a cycle "possessing a strain value". -/
def hasStrainValue (c : Cycle) : Bool :=
  (c.score.bind Score.strain).isSome

/-- Spec-side (claim C7): the strain value of a cycle, `0` when absent. -/
def cycleStrainValue (c : Cycle) : ℚ :=
  (c.score.bind Score.strain).getD 0

/-- Cycles that actually contribute to the computed average: those whose
strain is present and nonzero. -/
def hasNonzeroStrain (c : Cycle) : Bool :=
  match c.score.bind Score.strain with
  | some v => decide (v ≠ 0)
  | none => false

/-- The contributing cycles of a fetched list. -/
def contributingCycles (cycles : List Cycle) : List Cycle :=
  cycles.filter hasNonzeroStrain

/-- Spec-side (claim C7): arithmetic mean of the strain of every cycle
possessing a strain value. -/
def claimMeanStrain (cycles : List Cycle) : ℚ :=
  ((cycles.filter hasStrainValue).map cycleStrainValue).sum
    / ((cycles.filter hasStrainValue).length : ℚ)

/-- Does a character list start with the given pattern? -/
def matchesAt : List Char → List Char → Bool
  | [], _ => true
  | _ :: _, [] => false
  | a :: as, b :: bs => a = b && matchesAt as bs

/-- Spec-side (claim C9): substring occurrence, used to check whether a
secret occurs anywhere in the produced URL. -/
def containsSeq (needle : List Char) : List Char → Bool
  | [] => needle.isEmpty
  | c :: rest => matchesAt needle (c :: rest) || containsSeq needle rest

/-! ### Concrete fixtures used by witnesses and counterexamples -/

/-- Empty provider state. -/
def st0 : ProviderState :=
  { clients := [], tokens := [], auth_codes := [], whoop_tokens := [] }

/-- A Whoop token record for the default session. -/
def wt0 : List (String × String) :=
  [("access_token", "whoop-access"), ("refresh_token", "whoop-refresh")]

/-- Provider state holding Whoop tokens for `default_session`, so that
`exchange_authorization_code` succeeds. -/
def stW : ProviderState :=
  { clients := [], tokens := [], auth_codes := [],
    whoop_tokens := [("default_session", wt0)] }

/-- A registered client. -/
def client0 : OAuthClientInformationFull :=
  { client_id := "client-1", client_secret := some "client-secret-1",
    client_id_issued_at := some 1, redirect_uris := ["http://localhost/cb"] }

/-- A registration submission with no redirect URIs. -/
def infoNoUris : OAuthClientInformationFull :=
  { client_id := "", client_secret := none, client_id_issued_at := none,
    redirect_uris := [] }

/-- A registration submission with one redirect URI. -/
def infoOneUri : OAuthClientInformationFull :=
  { client_id := "", client_secret := none, client_id_issued_at := none,
    redirect_uris := ["http://localhost/cb"] }

/-- Upstream OAuth configuration with all three variables set. -/
def cfg0 : WhoopConfig :=
  { whoop_client_id := some "upstream-id",
    whoop_client_secret := some "upstream-secret",
    whoop_redirect_uri := some "http://localhost:8000/callback" }

/-- An authorization request with two scopes. -/
def params0 : AuthorizationParams :=
  { scopes := some ["read:recovery", "read:sleep"], code_challenge := "ch",
    redirect_uri := "http://localhost/cb",
    redirect_uri_provided_explicitly := true, resource := none,
    state := some "xyz" }

/-- An authorization request with an empty scope list. -/
def paramsEmptyScopes : AuthorizationParams :=
  { scopes := some ([] : List String), code_challenge := "ch",
    redirect_uri := "http://localhost/cb",
    redirect_uri_provided_explicitly := true, resource := none,
    state := some "xyz" }

/-- A stored authorization code. -/
def ac0 : AuthorizationCode :=
  { code := "code-1", scopes := ["read:recovery"], expires_at := 1600,
    client_id := "client-1", code_challenge := "ch",
    redirect_uri := "http://localhost/cb",
    redirect_uri_provided_explicitly := true, resource := none }

/-- An access token whose stored expiry is the (falsy) timestamp 0. -/
def accZero : AccessToken :=
  { token := "tok-z", client_id := "client-1", scopes := [],
    expires_at := some 0, resource := none }

/-- State holding only `accZero`. -/
def stZero : ProviderState :=
  { clients := [], tokens := [("tok-z", accZero)], auth_codes := [],
    whoop_tokens := [] }

/-- An access token with a nonzero expiry of 50. -/
def accOld : AccessToken :=
  { token := "tok-old", client_id := "client-1", scopes := [],
    expires_at := some 50, resource := none }

/-- State holding only `accOld`. -/
def stOld : ProviderState :=
  { clients := [], tokens := [("tok-old", accOld)], auth_codes := [],
    whoop_tokens := [] }

/-- A refresh token record, used as the presented token of
`exchange_refresh_token`. -/
def rt0 : RefreshToken :=
  { token := "refresh-1", client_id := "client-1",
    scopes := ["read:recovery"], expires_at := some 999 }

/-- A cycle whose strain is 0. -/
def cycZero : Cycle := { score := some { strain := some 0 } }

/-- A cycle whose strain is 10. -/
def cycTen : Cycle := { score := some { strain := some 10 } }

/-- The two-cycle list refuting claim C7 as stated. -/
def cycListZT : List Cycle := [cycZero, cycTen]

/-- The authorization code that `authorize` stores for
`paramsEmptyScopes` at time 5 with fresh code "c". -/
def acEmpty : AuthorizationCode :=
  { code := "c", scopes := [], expires_at := 605, client_id := "client-1",
    code_challenge := "ch", redirect_uri := "http://localhost/cb",
    redirect_uri_provided_explicitly := true, resource := none }

/-! ### Helper lemmas on the association-list operations -/

theorem lookupA_insertA_self {α : Type _} (m : List (String × α)) (k : String) (v : α) :
    lookupA (insertA m k v) k = some v := by
  simp [insertA, lookupA]

theorem lookupA_eraseA_self {α : Type _} (m : List (String × α)) (k : String) :
    lookupA (eraseA m k) k = none := by
  induction m with
  | nil => rfl
  | cons kv rest ih =>
      obtain ⟨k1, v⟩ := kv
      by_cases h : k1 = k
      · simp [eraseA, h, ih]
      · simp [eraseA, lookupA, h, ih]

/-- Whatever branch `exchange_authorization_code` takes, the code store
of the resulting state is the old one with the used code erased. -/
theorem exchange_auth_codes_erase (st : ProviderState)
    (client : OAuthClientInformationFull) (ac : AuthorizationCode)
    (now : Nat) (sess fa fr : String) :
    ((exchange_authorization_code st client ac now sess fa fr).1).auth_codes
      = eraseA st.auth_codes ac.code := by
  cases h : ((lookupA st.whoop_tokens "default_session").getD []).isEmpty
  · simp [exchange_authorization_code, h]
  · simp [exchange_authorization_code, h]

/-! ### Claim theorems -/

/-- C1: authorization codes are single-use.  After
`exchange_authorization_code` has been called on a code — whichever
branch it takes, success or the `TokenError` raised when no Whoop tokens
are available — the code string is no longer in the code store, and a
subsequent `load_authorization_code` on the same code string returns
`None` (and leaves the state unchanged). -/
theorem C1_authorization_code_single_use (st : ProviderState)
    (client client2 : OAuthClientInformationFull) (ac : AuthorizationCode)
    (now now2 : Nat) (sess fa fr : String) :
    lookupA ((exchange_authorization_code st client ac now sess fa fr).1).auth_codes
        ac.code = none
    ∧ load_authorization_code ((exchange_authorization_code st client ac now sess fa fr).1)
        client2 ac.code now2
      = ((exchange_authorization_code st client ac now sess fa fr).1, none) := by
  have h := exchange_auth_codes_erase st client ac now sess fa fr
  have hl : lookupA ((exchange_authorization_code st client ac now sess fa fr).1).auth_codes
      ac.code = none := by
    rw [h]; exact lookupA_eraseA_self _ _
  exact ⟨hl, by simp [load_authorization_code, hl]⟩

/-- C4: refresh-token validation is unimplemented.  `load_refresh_token`
returns `None` for every client and token string, and
`exchange_refresh_token` stores and returns a fresh one-hour access token
with the requested scopes without inspecting the presented refresh token
(its result is the same for any two presented tokens). -/
theorem C4_refresh_validation_unimplemented (st : ProviderState)
    (client : OAuthClientInformationFull) (rt rt2 : RefreshToken) (rts : String)
    (scopes : List String) (now : Nat) (fa : String) :
    load_refresh_token st client rts = none
    ∧ lookupA ((exchange_refresh_token st client rt scopes now fa).1).tokens fa
        = some ((exchange_refresh_token st client rt scopes now fa).2.2)
    ∧ ((exchange_refresh_token st client rt scopes now fa).2.2).scopes = scopes
    ∧ ((exchange_refresh_token st client rt scopes now fa).2.2).expires_at
        = some (now + 3600)
    ∧ ((exchange_refresh_token st client rt scopes now fa).2.1).access_token = fa
    ∧ exchange_refresh_token st client rt scopes now fa
        = exchange_refresh_token st client rt2 scopes now fa := by
  refine ⟨rfl, ?_, rfl, rfl, rfl, rfl⟩
  simp [exchange_refresh_token, lookupA_insertA_self]

/-- C5: `register_client` raises `RegistrationError` with code
`invalid_redirect_uri` exactly when the submitted registration has no
redirect URIs, leaving the client store unchanged; with at least one
redirect URI it stores the client under a fresh id with the fresh
secret and the issuance time. -/
theorem C5_register_client_requires_redirect_uri (st : ProviderState)
    (client_info : OAuthClientInformationFull) (fresh_id fresh_secret : String)
    (now : Nat) :
    (client_info.redirect_uris = [] →
      register_client st client_info fresh_id fresh_secret now
        = (st, .error { error := "invalid_redirect_uri",
                        error_description := "At least one redirect URI is required" }))
    ∧ (∀ u us, client_info.redirect_uris = u :: us →
        ∃ stored : OAuthClientInformationFull,
          register_client st client_info fresh_id fresh_secret now
            = ({ st with clients := insertA st.clients fresh_id stored }, .ok stored)
          ∧ stored.client_id = fresh_id
          ∧ stored.client_secret = some fresh_secret
          ∧ stored.client_id_issued_at = some now
          ∧ lookupA ((register_client st client_info fresh_id fresh_secret now).1).clients
              fresh_id = some stored) := by
  constructor
  · intro h
    simp [register_client, h]
  · intro u us h
    refine ⟨{ client_info with
                client_id := fresh_id
                client_secret := some fresh_secret
                client_id_issued_at := some now },
            ?_, rfl, rfl, rfl, ?_⟩
    · simp [register_client, h]
    · simp [register_client, h, lookupA_insertA_self]

/-- C5 witness: both branches of the theorem evaluated at concrete
inputs. -/
theorem C5_register_client_witness :
    (register_client st0 infoNoUris "fresh-id" "fresh-secret" 5
       = (st0, .error { error := "invalid_redirect_uri",
                        error_description := "At least one redirect URI is required" }))
    ∧ ∃ stored : OAuthClientInformationFull,
        register_client st0 infoOneUri "fresh-id" "fresh-secret" 5
          = ({ st0 with clients := insertA st0.clients "fresh-id" stored }, .ok stored)
        ∧ stored.client_id = "fresh-id"
        ∧ stored.client_secret = some "fresh-secret"
        ∧ stored.client_id_issued_at = some 5
        ∧ lookupA ((register_client st0 infoOneUri "fresh-id" "fresh-secret" 5).1).clients
            "fresh-id" = some stored := by
  constructor
  · exact (C5_register_client_requires_redirect_uri st0 infoNoUris
      "fresh-id" "fresh-secret" 5).1 rfl
  · exact (C5_register_client_requires_redirect_uri st0 infoOneUri
      "fresh-id" "fresh-secret" 5).2 "http://localhost/cb" [] rfl

/-- C2 (amended): a stored access token whose `expires_at` is truthy
(present and nonzero) and strictly in the past is deleted and not
returned; a stored token whose expiry is absent, zero (Python falsiness
treats it as non-expiring) or not in the past is returned with the store
unchanged. -/
theorem C2_load_access_token_expiry (st : ProviderState) (token : String)
    (now : Nat) (acc : AccessToken) (h : lookupA st.tokens token = some acc) :
    (∀ e, acc.expires_at = some e → e ≠ 0 → now > e →
        load_access_token st token now
          = ({ st with tokens := eraseA st.tokens token }, none))
    ∧ ((match acc.expires_at with
        | some e => e = 0 ∨ now ≤ e
        | none => True) →
        load_access_token st token now = (st, some acc)) := by
  constructor
  · intro e he h0 hgt
    simp [load_access_token, h, he, h0, hgt]
  · intro hval
    cases he : acc.expires_at with
    | none => simp [load_access_token, h, he]
    | some e =>
        rw [he] at hval
        have hval1 : e = 0 ∨ now ≤ e := by simpa using hval
        have hcond : ¬(e ≠ 0 ∧ now > e) := by
          rcases hval1 with h0 | hle <;> omega
        simp [load_access_token, h, he, hcond]

/-- C2 witness: the token `accOld` (expiry 50) is deleted when loaded at
time 100 and returned unchanged when loaded at time 30. -/
theorem C2_load_access_token_expiry_witness :
    load_access_token stOld "tok-old" 100
      = ({ stOld with tokens := eraseA stOld.tokens "tok-old" }, none)
    ∧ load_access_token stOld "tok-old" 30 = (stOld, some accOld) := by
  constructor
  · exact (C2_load_access_token_expiry stOld "tok-old" 100 accOld rfl).1 50 rfl
      (by decide) (by decide)
  · exact (C2_load_access_token_expiry stOld "tok-old" 30 accOld rfl).2
      (by show (50 : Nat) = 0 ∨ 30 ≤ 50; right; decide)

/-- C2 counterexample: the stored token `accZero` has `expires_at = 0`,
which lies strictly in the past at call time 1760000000, yet
`load_access_token` returns it and leaves the store unchanged — Python
`if access_token.expires_at and ...` treats the falsy `0` as "no
expiry", so the token is neither rejected nor purged as claimed. -/
theorem C2_expiry_zero_counterexample :
    accZero.expires_at = some 0 ∧ 0 < 1760000000
    ∧ load_access_token stZero "tok-z" 1760000000 = (stZero, some accZero)
    ∧ load_access_token stZero "tok-z" 1760000000
        ≠ ({ stZero with tokens := eraseA stZero.tokens "tok-z" }, none) := by
  exact ⟨rfl, by decide, by decide, by decide⟩

/-- C6: every failure of `json.loads` (a `JSONDecodeError`, whatever its
message `e`) makes `handle_jsonrpc_message` return — not raise — the
JSON-RPC response whose error code is -32700, whose message is
"Parse error" and whose id is null. -/
theorem C6_parse_error_response (e : String) :
    handle_jsonrpc_message (.error e)
      = .obj [("jsonrpc", .str "2.0"), ("id", .null),
              ("error", .obj [("code", .num (-32700 : ℚ)),
                              ("message", .str "Parse error"),
                              ("data", .str e)])] := rfl

/-- The strain list built by the code is exactly the strain of the
cycles whose strain is present and nonzero, in order. -/
theorem strainValues_eq_contributing (cycles : List Cycle) :
    strainValues cycles = (contributingCycles cycles).map cycleStrainValue := by
  induction cycles with
  | nil => rfl
  | cons c rest ih =>
      obtain ⟨sc⟩ := c
      cases sc with
      | none =>
          simpa [strainValues, contributingCycles, hasNonzeroStrain,
            List.filter_cons] using ih
      | some s =>
          obtain ⟨stv⟩ := s
          cases stv with
          | none =>
              simpa [strainValues, contributingCycles, hasNonzeroStrain,
                List.filter_cons] using ih
          | some v =>
              by_cases hv : v = 0
              · simpa [strainValues, contributingCycles, hasNonzeroStrain,
                  List.filter_cons, hv] using ih
              · simpa [strainValues, contributingCycles, hasNonzeroStrain,
                  cycleStrainValue, List.filter_cons, hv] using ih

/-- C7 (amended): on a non-empty fetched cycle list with at least one
contributing cycle, the computed average is the arithmetic mean of the
strain over exactly the cycles whose strain is present and nonzero
(cycles lacking a strain value, and — unlike the claim as stated —
cycles whose strain equals 0, are excluded), and the reported samples
count is the number of those contributing cycles. -/
theorem C7_average_strain (cycles : List Cycle) (days : Int) (t : String)
    (hc : cycles ≠ []) (hs : contributingCycles cycles ≠ []) :
    get_average_strain true (.ok cycles) days t
      = .ok (((contributingCycles cycles).map cycleStrainValue).sum
               / (((contributingCycles cycles).length : ℚ)))
          days ((contributingCycles cycles).length) t := by
  have hse := strainValues_eq_contributing cycles
  have hce : cycles.isEmpty = false := by
    cases cycles with
    | nil => exact absurd rfl hc
    | cons a l => rfl
  have hsne : strainValues cycles ≠ [] := by
    rw [hse]
    simpa using hs
  have hsee : (strainValues cycles).isEmpty = false := by
    cases hx : strainValues cycles with
    | nil => exact absurd hx hsne
    | cons a l => rfl
  have hlen : (strainValues cycles).length = (contributingCycles cycles).length := by
    rw [hse, List.length_map]
  have hsee2 : ((contributingCycles cycles).map cycleStrainValue).isEmpty = false := by
    rw [← hse]; exact hsee
  unfold get_average_strain
  simp only [Bool.not_true, Bool.false_eq_true, if_false, hce, hsee, hse,
    List.length_map, hlen, hsee2]

/-- C7 witness: the amended theorem evaluated on the concrete two-cycle
list (strains 0 and 10). -/
theorem C7_average_strain_witness :
    cycListZT ≠ [] ∧ contributingCycles cycListZT ≠ []
    ∧ get_average_strain true (.ok cycListZT) 7 "t"
        = .ok (((contributingCycles cycListZT).map cycleStrainValue).sum
                 / (((contributingCycles cycListZT).length : ℚ)))
            7 ((contributingCycles cycListZT).length) "t" := by
  refine ⟨by decide, by decide, C7_average_strain cycListZT 7 "t" (by decide) (by decide)⟩

/-- C7 counterexample: on the list `[strain 0, strain 10]` the code
returns average 10 with 1 sample, while the claim as stated — every
cycle possessing a strain value contributes — predicts average 5 with 2
samples. -/
theorem C7_zero_strain_counterexample :
    get_average_strain true (.ok cycListZT) 7 "t" = .ok 10 7 1 "t"
    ∧ (cycListZT.filter hasStrainValue).length = 2
    ∧ claimMeanStrain cycListZT = 5
    ∧ get_average_strain true (.ok cycListZT) 7 "t"
        ≠ .ok (claimMeanStrain cycListZT) 7
            ((cycListZT.filter hasStrainValue).length) "t" := by
  have h1 : get_average_strain true (.ok cycListZT) 7 "t" = .ok 10 7 1 "t" := by
    norm_num [get_average_strain, strainValues, cycListZT, cycZero, cycTen]
  have h2 : (cycListZT.filter hasStrainValue).length = 2 := by decide
  have h3 : claimMeanStrain cycListZT = 5 := by
    norm_num [claimMeanStrain, cycListZT, cycZero, cycTen, hasStrainValue,
      cycleStrainValue, List.filter_cons]
  refine ⟨h1, h2, h3, ?_⟩
  rw [h1, h2, h3]
  decide

/-- C8: every tool dispatcher operation catches an upstream exception
(message `e`) and returns a structured `{"error": e}` value instead of
propagating it, and returns the same `{"error": ...}` shape when the
client is unauthenticated or the upstream result is empty/falsy (for
`get_average_strain` the `{"error": msg}` dict is the `.error msg`
constructor of its result type). -/
theorem C8_tool_errors_as_data (e t i : String)
    (u1 : Except String (List JValue)) (u2 : Except String JValue)
    (uc : Except String (List Cycle)) (d : Int) :
    get_latest_cycle false u1 t = .obj [("error", .str "Not authenticated with Whoop")]
    ∧ get_latest_cycle true (.error e) t = .obj [("error", .str e)]
    ∧ get_latest_cycle true (.ok []) t = .obj [("error", .str "No cycle data available")]
    ∧ get_average_strain false uc d t = .error "Not authenticated with Whoop"
    ∧ get_average_strain true (.error e) d t = .error e
    ∧ get_average_strain true (.ok []) d t = .error "No cycle data available"
    ∧ get_cycles false u1 t = [.obj [("error", .str "Not authenticated with Whoop")]]
    ∧ get_cycles true (.error e) t = [.obj [("error", .str e)]]
    ∧ get_cycles true (.ok []) t = [.obj [("error", .str "No cycle data available")]]
    ∧ get_recoveries false u1 t = [.obj [("error", .str "Not authenticated with Whoop")]]
    ∧ get_recoveries true (.error e) t = [.obj [("error", .str e)]]
    ∧ get_recoveries true (.ok []) t = [.obj [("error", .str "No recovery data available")]]
    ∧ get_sleeps false u1 t = [.obj [("error", .str "Not authenticated with Whoop")]]
    ∧ get_sleeps true (.error e) t = [.obj [("error", .str e)]]
    ∧ get_sleeps true (.ok []) t = [.obj [("error", .str "No sleep data available")]]
    ∧ get_workouts false u1 t = [.obj [("error", .str "Not authenticated with Whoop")]]
    ∧ get_workouts true (.error e) t = [.obj [("error", .str e)]]
    ∧ get_workouts true (.ok []) t = [.obj [("error", .str "No workout data available")]]
    ∧ get_strains false u1 t = [.obj [("error", .str "Not authenticated with Whoop")]]
    ∧ get_strains true (.error e) t = [.obj [("error", .str e)]]
    ∧ get_strains true (.ok []) t = [.obj [("error", .str "No strain data available")]]
    ∧ get_user_body_measurements false u2 t
        = .obj [("error", .str "Not authenticated with Whoop")]
    ∧ get_user_body_measurements true (.error e) t = .obj [("error", .str e)]
    ∧ get_user_body_measurements true (.ok .null) t
        = .obj [("error", .str "No body measurement data available")]
    ∧ get_cycle_by_id false i u2 t = .obj [("error", .str "Not authenticated with Whoop")]
    ∧ get_cycle_by_id true i (.error e) t = .obj [("error", .str e)]
    ∧ get_cycle_by_id true i (.ok .null) t
        = .obj [("error", .str ("No cycle found with ID " ++ i))]
    ∧ get_recovery_by_id false i u2 t = .obj [("error", .str "Not authenticated with Whoop")]
    ∧ get_recovery_by_id true i (.error e) t = .obj [("error", .str e)]
    ∧ get_recovery_by_id true i (.ok .null) t
        = .obj [("error", .str ("No recovery found with ID " ++ i))]
    ∧ get_sleep_by_id false i u2 t = .obj [("error", .str "Not authenticated with Whoop")]
    ∧ get_sleep_by_id true i (.error e) t = .obj [("error", .str e)]
    ∧ get_sleep_by_id true i (.ok .null) t
        = .obj [("error", .str ("No sleep found with ID " ++ i))]
    ∧ get_workout_by_id false i u2 t = .obj [("error", .str "Not authenticated with Whoop")]
    ∧ get_workout_by_id true i (.error e) t = .obj [("error", .str e)]
    ∧ get_workout_by_id true i (.ok .null) t
        = .obj [("error", .str ("No workout found with ID " ++ i))]
    ∧ get_strain_by_id false i u2 t = .obj [("error", .str "Not authenticated with Whoop")]
    ∧ get_strain_by_id true i (.error e) t = .obj [("error", .str e)]
    ∧ get_strain_by_id true i (.ok .null) t
        = .obj [("error", .str ("No strain found with ID " ++ i))] :=
  ⟨rfl, rfl, rfl, rfl, rfl, rfl, rfl, rfl, rfl, rfl, rfl, rfl, rfl, rfl, rfl,
   rfl, rfl, rfl, rfl, rfl, rfl, rfl, rfl, rfl, rfl, rfl, rfl, rfl, rfl, rfl,
   rfl, rfl, rfl, rfl, rfl, rfl, rfl, rfl, rfl⟩

/-- C3 (amended): the code created by `authorize` carries exactly the
requested scopes (`params.scopes or []`), and exchanging it issues an
access token with those same scopes; the returned OAuthToken's scope
string is their space-join when they are non-empty, and `None` (not the
empty join) when they are empty. -/
theorem C3_roundtrip_scopes (st : ProviderState) (cfg : WhoopConfig)
    (client : OAuthClientInformationFull) (params : AuthorizationParams)
    (fresh_code fresh_state : String) (now now2 : Nat) (sess fa fr : String)
    (wt : List (String × String))
    (hwt : lookupA st.whoop_tokens "default_session" = some wt)
    (hne : wt ≠ []) :
    ∃ code : AuthorizationCode,
      lookupA ((authorize st cfg client params fresh_code fresh_state now).1).auth_codes
          fresh_code = some code
      ∧ code.scopes = params.scopes.getD []
      ∧ match exchange_authorization_code
            (authorize st cfg client params fresh_code fresh_state now).1
            client code now2 sess fa fr with
        | (st2, .ok (tok, acc, _)) =>
            acc.scopes = params.scopes.getD []
            ∧ lookupA st2.tokens fa = some acc
            ∧ (params.scopes.getD [] ≠ [] →
                tok.scope = some (String.intercalate " " (params.scopes.getD [])))
            ∧ (params.scopes.getD [] = [] → tok.scope = none)
        | (_, .error _) => False := by
  have hemp : wt.isEmpty = false := by
    cases wt with
    | nil => exact absurd rfl hne
    | cons a l => rfl
  refine ⟨{ code := fresh_code
            scopes := params.scopes.getD []
            expires_at := now + 600
            client_id := client.client_id
            code_challenge := params.code_challenge
            redirect_uri := params.redirect_uri
            redirect_uri_provided_explicitly := params.redirect_uri_provided_explicitly
            resource := params.resource },
          ?_, rfl, ?_⟩
  · exact lookupA_insertA_self _ _ _
  · simp only [exchange_authorization_code, authorize, hwt, Option.getD_some, hemp,
      Bool.false_eq_true, if_false]
    refine ⟨by trivial, ?_, ?_, ?_⟩
    · exact lookupA_insertA_self _ _ _
    · intro hne2
      have : (params.scopes.getD []).isEmpty = false := by
        cases hx : params.scopes.getD [] with
        | nil => exact absurd hx hne2
        | cons a l => rfl
      simp [this]
    · intro heq
      simp [heq]

/-- C3 witness: the amended round trip evaluated on the concrete state
`stW` with the two-scope request `params0`. -/
theorem C3_roundtrip_scopes_witness :
    ∃ code : AuthorizationCode,
      lookupA ((authorize stW cfg0 client0 params0 "c" "fs" 5).1).auth_codes
          "c" = some code
      ∧ code.scopes = params0.scopes.getD []
      ∧ match exchange_authorization_code
            (authorize stW cfg0 client0 params0 "c" "fs" 5).1
            client0 code 1000 "sess" "fa" "fr" with
        | (st2, .ok (tok, acc, _)) =>
            acc.scopes = params0.scopes.getD []
            ∧ lookupA st2.tokens "fa" = some acc
            ∧ (params0.scopes.getD [] ≠ [] →
                tok.scope = some (String.intercalate " " (params0.scopes.getD [])))
            ∧ (params0.scopes.getD [] = [] → tok.scope = none)
        | (_, .error _) => False :=
  C3_roundtrip_scopes stW cfg0 client0 params0 "c" "fs" 5 1000 "sess" "fa" "fr"
    wt0 rfl (by decide)

/-- C3 counterexample: an authorization request with an empty scope list
round-trips to an OAuthToken whose scope is `None`, while the claim's
space-join of the requested scopes is `some ""` — so the returned scope
string is not the space-join of the requested scopes. -/
theorem C3_empty_scope_counterexample :
    lookupA ((authorize stW cfg0 client0 paramsEmptyScopes "c" "fs" 5).1).auth_codes
        "c" = some acEmpty
    ∧ acEmpty.scopes = paramsEmptyScopes.scopes.getD []
    ∧ (match exchange_authorization_code
          (authorize stW cfg0 client0 paramsEmptyScopes "c" "fs" 5).1
          client0 acEmpty 1000 "sess" "fa" "fr" with
       | (_, .ok (tok, _, _)) => tok.scope
       | (_, .error _) => some "unreachable") = none
    ∧ String.intercalate " " (paramsEmptyScopes.scopes.getD []) = ""
    ∧ (none : Option String) ≠ some "" := by
  exact ⟨by decide, by decide, by decide, by decide, by decide⟩

/-- C9 (amended): the URL returned by `authorize` is the upstream
authorization endpoint with query parameters `response_type=code`, the
upstream client id, the upstream redirect URI, the hardcoded scope
string `read:recovery read:workout read:profile` and a state value —
every parameter value is one of those five, so neither the upstream
client secret nor the scopes requested in the authorization are
embedded. -/
theorem C9_authorize_upstream_url (st : ProviderState) (cfg : WhoopConfig)
    (client : OAuthClientInformationFull) (params : AuthorizationParams)
    (fresh_code fresh_state : String) (now : Nat) :
    (authorize st cfg client params fresh_code fresh_state now).2
      = "https://api.prod.whoop.com/oauth/oauth2/auth?"
          ++ urlencode (whoopAuthParams cfg params fresh_state)
    ∧ ("client_id", pyStrOpt cfg.whoop_client_id) ∈ whoopAuthParams cfg params fresh_state
    ∧ ("scope", "read:recovery read:workout read:profile")
        ∈ whoopAuthParams cfg params fresh_state
    ∧ (∀ k v, (k, v) ∈ whoopAuthParams cfg params fresh_state →
        v = "code" ∨ v = pyStrOpt cfg.whoop_client_id
          ∨ v = pyStrOpt cfg.whoop_redirect_uri
          ∨ v = "read:recovery read:workout read:profile"
          ∨ v = authStateValue params fresh_state) := by
  refine ⟨rfl, by simp [whoopAuthParams], by simp [whoopAuthParams], ?_⟩
  intro k v hv
  simp only [whoopAuthParams, List.mem_cons, List.not_mem_nil, or_false,
    Prod.mk.injEq] at hv
  rcases hv with ⟨-, rfl⟩ | ⟨-, rfl⟩ | ⟨-, rfl⟩ | ⟨-, rfl⟩ | ⟨-, rfl⟩ <;> tauto

/-- C9 witness: the parameter-value characterization applied to the
concrete parameter `("response_type", "code")`. -/
theorem C9_authorize_upstream_url_witness :
    "code" = "code" ∨ "code" = pyStrOpt cfg0.whoop_client_id
      ∨ "code" = pyStrOpt cfg0.whoop_redirect_uri
      ∨ "code" = "read:recovery read:workout read:profile"
      ∨ "code" = authStateValue params0 "fs" :=
  (C9_authorize_upstream_url st0 cfg0 client0 params0 "c" "fs" 5).2.2.2
    "response_type" "code" (by decide)

/-- C9 counterexample: with the upstream secret "upstream-secret" and
the requested scopes ["read:recovery", "read:sleep"], neither the
secret nor the requested scopes (nor their space-join) appears among
the query-parameter values, and the secret occurs nowhere in the full
URL — refuting the claim that the URL embeds the upstream client
secret and the requested scopes. -/
theorem C9_secret_not_embedded_counterexample :
    cfg0.whoop_client_secret = some "upstream-secret"
    ∧ params0.scopes = some ["read:recovery", "read:sleep"]
    ∧ "upstream-secret" ∉ (whoopAuthParams cfg0 params0 "fs").map Prod.snd
    ∧ String.intercalate " " ["read:recovery", "read:sleep"]
        ∉ (whoopAuthParams cfg0 params0 "fs").map Prod.snd
    ∧ "read:sleep" ∉ (whoopAuthParams cfg0 params0 "fs").map Prod.snd
    ∧ containsSeq "upstream-secret".toList
        ((authorize st0 cfg0 client0 params0 "c" "fs" 5).2).toList = false := by
  exact ⟨rfl, rfl, by decide, by decide, by decide, by decide⟩

/-- C10 (amended): authorization codes expire 600 seconds after
issuance and access tokens 3600 seconds after issuance (on both
exchange paths), as claimed; but the refresh-token record built by
`exchange_authorization_code` expires 3600 + 86400 seconds after
issuance (24 hours after the access-token expiry), not 86400 seconds
after issuance as claimed. -/
theorem C10_token_lifetimes (st : ProviderState) (cfg : WhoopConfig)
    (client client2 : OAuthClientInformationFull) (params : AuthorizationParams)
    (fresh_code fresh_state : String) (now : Nat) (ac : AuthorizationCode)
    (now2 : Nat) (sess fa fr : String) (wt : List (String × String))
    (rt : RefreshToken) (scopes2 : List String) (now3 : Nat) (fa2 : String)
    (hwt : lookupA st.whoop_tokens "default_session" = some wt)
    (hne : wt ≠ []) :
    (∃ c : AuthorizationCode,
        lookupA ((authorize st cfg client params fresh_code fresh_state now).1).auth_codes
            fresh_code = some c
        ∧ c.expires_at = now + 600)
    ∧ (match (exchange_authorization_code st client ac now2 sess fa fr).2 with
       | .ok (tok, acc, rt1) =>
           acc.expires_at = some (now2 + 3600)
           ∧ tok.expires_in = 3600
           ∧ rt1.expires_at = some (now2 + 3600 + 86400)
       | .error _ => False)
    ∧ ((exchange_refresh_token st client2 rt scopes2 now3 fa2).2.2).expires_at
        = some (now3 + 3600) := by
  have hemp : wt.isEmpty = false := by
    cases wt with
    | nil => exact absurd rfl hne
    | cons a l => rfl
  refine ⟨⟨_, lookupA_insertA_self _ _ _, rfl⟩, ?_, rfl⟩
  simp only [exchange_authorization_code, hwt, Option.getD_some, hemp,
    Bool.false_eq_true, if_false]
  exact ⟨by trivial, by trivial, by trivial⟩

/-- C10 witness: the exchange-path lifetimes at issuance time 1000 on
the concrete state `stW`. -/
theorem C10_token_lifetimes_witness :
    match (exchange_authorization_code stW client0 ac0 1000 "sess" "fa" "fr").2 with
    | .ok (tok, acc, rt1) =>
        acc.expires_at = some (1000 + 3600)
        ∧ tok.expires_in = 3600
        ∧ rt1.expires_at = some (1000 + 3600 + 86400)
    | .error _ => False :=
  (C10_token_lifetimes stW cfg0 client0 client0 params0 "c" "fs" 5 ac0 1000
    "sess" "fa" "fr" wt0 rt0 [] 7 "fa2" rfl (by decide)).2.1

/-- C10 counterexample: exchanging at time 1000 builds a refresh-token
record expiring at 91000 = 1000 + 3600 + 86400, while the claim's
issuance time plus 86400 seconds is 87400. -/
theorem C10_refresh_expiry_counterexample :
    (match (exchange_authorization_code stW client0 ac0 1000 "sess" "fa" "fr").2 with
     | .ok (_, _, rt1) => rt1.expires_at
     | .error _ => none) = some 91000
    ∧ (91000 : Nat) ≠ 1000 + 86400 := by
  exact ⟨by decide, by decide⟩

end Whoop
